import Mathlib

/-!
Verification of `src/evaluate/llm_handler.py` (class `LLMHandler`).

The Python module is embedded shallowly:

* the three static tables (`available_models`, `model_types`, `model_patterns`)
  become literal Lean lists, keeping Python dict insertion order (commented
  out catalog entries are absent, as in the source);
* Python `raise ValueError(...)` becomes `Except.error` with an `LLMError`
  constructor recording which error was raised;
* the parameter dict `model_params` becomes an insertion-ordered association
  list with Python-dict update semantics (`dictSet`, `dictPop`, `dictGet`);
* the `os.environ[...] = api_key` side effect becomes an explicit list of
  environment writes returned alongside the result;
* the provider-SDK constructor calls (`ChatOllama(...)` etc.) become a
  `ClientCall` record of constructor name, model-argument keyword, model
  value, base URL and forwarded parameters;
* Python float temperatures are decimal literals never computed with, so they
  are modelled as exact rationals.
-/

/-- A Python value as it appears in the `model_params` dict of `get_llm`:
numbers (temperature), integers (max_tokens), strings, or `None`. -/
inductive PyValue where
  | vnum (q : ℚ)
  | vint (n : Int)
  | vstr (s : String)
  | vnone
  deriving Repr, DecidableEq

/-- The three `ValueError`s `LLMHandler` can raise. -/
inductive LLMError where
  | providerDetectionError (model_name : String)
  | unsupportedProvider (provider : String)
  | unsupportedModel (provider model_name : String)
  deriving Repr, DecidableEq

deriving instance DecidableEq for Except

/-- `leadMatch pat s` : the char list `pat` matches at the head of `s`. -/
def leadMatch : List Char → List Char → Bool
  | [], _ => true
  | _ :: _, [] => false
  | a :: pa, b :: sb => a == b && leadMatch pa sb

/-- `hasSub pat s` : `pat` occurs contiguously somewhere in `s`. -/
def hasSub : List Char → List Char → Bool
  | pat, [] => leadMatch pat []
  | pat, c :: rest => leadMatch pat (c :: rest) || hasSub pat rest

/-- Python `pat in s` substring test on strings. -/
def substrOf (pat s : String) : Bool := hasSub pat.data s.data

/-- Python `s.lower()`: lower-case every character. -/
def strLower (s : String) : String := ⟨s.data.map Char.toLower⟩

/-- Python `s.upper()` (used for the `{PROVIDER}_API_KEY` env name). -/
def strUpper (s : String) : String := ⟨s.data.map Char.toUpper⟩

namespace LLMHandler

/-- `self.available_models`: only the "ollama" entry is active in the source;
all other providers are commented out. -/
def available_models : List (String × List String) :=
  [("ollama", ["llama3.2:3b", "mistral:7b"])]

/-- `self.model_types` (informational only; unused by the operations). -/
def model_types : List (String × String) :=
  [("llama3.2:3b", "open-source"),
   ("mistral:7b", "open-source"),
   ("claude-3-5-sonnet-20241022", "private"),
   ("claude-3-5-haiku-20241022", "private"),
   ("open-mistral-nemo-2407", "open-source"),
   ("ministral-8b-2410", "private"),
   ("mistral-small-2409", "private"),
   ("mistral-large-2411", "private"),
   ("gemini-2.0-flash-exp", "private"),
   ("gemini-1.5-flash", "private"),
   ("gemini-1.5-pro", "private"),
   ("gemini-2.0-flash-001", "private"),
   ("meta-llama/Llama-3.3-70B-Instruct-Turbo", "open-source"),
   ("meta-llama/Meta-Llama-3.1-8B-Instruct-Turbo", "open-source"),
   ("gpt-4o-2024-11-20", "private"),
   ("gpt-4o-mini", "private"),
   ("o1-2024-12-17", "private"),
   ("accounts/fireworks/models/qwen-qwq-32b-preview", "open-source"),
   ("accounts/fireworks/models/qwen2p5-72b-instruct", "open-source"),
   ("accounts/fireworks/models/deepseek-v3", "open-source"),
   ("accounts/fireworks/models/deepseek-r1", "open-source")]

/-- `self.model_patterns`, in Python dict insertion order. -/
def model_patterns : List (String × String) :=
  [("o1", "openai"),
   ("o3", "openai"),
   ("gpt-4o", "openai"),
   ("claude", "anthropic"),
   ("mistral-", "mistral"),
   ("ministral", "mistral"),
   ("gemini", "google"),
   ("mixtral", "together"),
   ("llama", "ollama"),
   ("fireworks", "fireworks"),
   ("r1", "together"),
   ("deepseek-v3", "together")]

/-- `LLMHandler._detect_provider`: first pattern that is a substring of the
lower-cased model name wins; otherwise `ValueError`. -/
def detect_provider (model_name : String) : Except LLMError String :=
  match model_patterns.find? (fun pr => substrOf pr.1 (strLower model_name)) with
  | some pr => .ok pr.2
  | none => .error (.providerDetectionError model_name)

/-- `LLMHandler._validate_model`: `ValueError` when the provider is not a key
of `available_models`, then `ValueError` when the model is not in the
provider list, else `True`. -/
def validate_model (provider model_name : String) : Except LLMError Bool :=
  match available_models.find? (fun pr => pr.1 == provider) with
  | none => .error (.unsupportedProvider provider)
  | some pr =>
    if pr.2.contains model_name then .ok true
    else .error (.unsupportedModel provider model_name)

/-- `LLMHandler.get_all_models`: the `all_models.extend(models)` loop. -/
def get_all_models : List String :=
  available_models.foldl (fun all_models pr => all_models ++ pr.2) []

end LLMHandler

/-- A Python dict as an insertion-ordered association list: lookup. -/
def dictGet (d : List (String × PyValue)) (k : String) : Option PyValue :=
  (d.find? (fun pr => pr.1 == k)).map (·.2)

/-- Python `d.pop(k, None)`: remove the key (no error when absent). -/
def dictPop (d : List (String × PyValue)) (k : String) : List (String × PyValue) :=
  d.filter (fun pr => pr.1 != k)

/-- Python `d[k] = v`: update in place when the key exists, else append. -/
def dictSet (d : List (String × PyValue)) (k : String) (v : PyValue) :
    List (String × PyValue) :=
  if d.any (fun pr => pr.1 == k) then
    d.map (fun pr => if pr.1 == k then (k, v) else pr)
  else d ++ [(k, v)]

/-- Python truthiness of an `Optional[str]`: `None` and `""` are falsy. -/
def pyTruthy : Option String → Bool
  | none => false
  | some s => s != ""

namespace LLMHandler

/-- Lines 165-176 of `get_llm`: build
`{"temperature": temperature, "max_tokens": max_tokens, **kwargs}`, pop
`temperature` when the model name contains `"o1"` or `"o3"`, set it to `0.6`
when the model name contains `"r1"`, then drop `None`-valued entries. -/
def assemble_params (model_name : String) (temperature : ℚ)
    (max_tokens : Option Int) (kwargs : List (String × PyValue)) :
    List (String × PyValue) :=
  let base : List (String × PyValue) :=
    [("temperature", .vnum temperature),
     ("max_tokens", match max_tokens with | some n => .vint n | none => .vnone)]
  let model_params := kwargs.foldl (fun d kv => dictSet d kv.1 kv.2) base
  let model_params :=
    if substrOf "o1" model_name || substrOf "o3" model_name then
      dictPop model_params "temperature"
    else model_params
  let model_params :=
    if substrOf "r1" model_name then
      dictSet model_params "temperature" (.vnum 0.6)
    else model_params
  model_params.filter (fun pr => pr.2 != PyValue.vnone)

end LLMHandler

/-- The constructor call `get_llm` hands to the provider SDK: which `Chat*`
constructor, the keyword used for the model argument (`model` vs
`model_name`), the model value, the base URL if one is passed, and the
forwarded `model_params`. -/
structure ClientCall where
  ctorName : String
  model_key : String
  model_value : String
  base_url : Option String
  params : List (String × PyValue)
  deriving Repr, DecidableEq

/-- What a call to `get_llm` does: its result (a constructor call, or `None`
when the provider chain falls through, or a raised error) and the list of
environment-variable writes it performs. -/
structure GetLlmResult where
  result : Except LLMError (Option ClientCall)
  env_writes : List (String × String)
  deriving Repr, DecidableEq

namespace LLMHandler

/-- The `if provider == ... elif ...` dispatch chain at the end of `get_llm`.
A provider matching no branch falls off the end of the Python function and
returns `None`. -/
def dispatch (provider model_name : String)
    (model_params : List (String × PyValue)) : Option ClientCall :=
  if provider == "anthropic" then
    some ⟨"ChatAnthropic", "model_name", model_name, none, model_params⟩
  else if provider == "mistral" then
    some ⟨"ChatMistralAI", "model_name", model_name, none, model_params⟩
  else if provider == "google" then
    some ⟨"ChatGoogleGenerativeAI", "model", model_name, none, model_params⟩
  else if provider == "together" then
    some ⟨"ChatTogether", "model", model_name, none, model_params⟩
  else if provider == "openai" then
    some ⟨"ChatOpenAI", "model", model_name, none, model_params⟩
  else if provider == "fireworks" then
    some ⟨"ChatFireworks", "model", model_name, none, model_params⟩
  else if provider == "ollama" then
    some ⟨"ChatOllama", "model", "llama3.1:8b-instruct-q8_0",
          some "http://host.docker.internal:11434/v1", model_params⟩
  else none

/-- Lines 156-157 of `get_llm`: auto-detect the provider when none is
supplied. -/
def resolve_provider (model_name : String) (provider : Option String) :
    Except LLMError String :=
  match provider with
  | some p => .ok p
  | none => detect_provider model_name

/-- `LLMHandler.get_llm`: resolve the provider (auto-detect when absent),
validate, write `{PROVIDER}_API_KEY` when a truthy api_key is supplied,
assemble the parameters, dispatch. Errors propagate and abort the call before
any later step runs. -/
def get_llm (model_name : String) (provider : Option String)
    (temperature : ℚ) (max_tokens : Option Int) (api_key : Option String)
    (kwargs : List (String × PyValue)) : GetLlmResult :=
  match resolve_provider model_name provider with
  | .error e => ⟨.error e, []⟩
  | .ok prov =>
    match validate_model prov model_name with
    | .error e => ⟨.error e, []⟩
    | .ok _ =>
      let env_writes :=
        if pyTruthy api_key then
          [(strUpper prov ++ "_API_KEY", api_key.getD "")]
        else []
      ⟨.ok (dispatch prov model_name
              (assemble_params model_name temperature max_tokens kwargs)),
       env_writes⟩

end LLMHandler

/-- The client call `get_llm "llama3.2:3b"` hands to `ChatOllama`: hardcoded
model and base URL, default temperature `0.0` and max_tokens `4000`. -/
def sampleOllamaCall : ClientCall :=
  ⟨"ChatOllama", "model", "llama3.1:8b-instruct-q8_0",
   some "http://host.docker.internal:11434/v1",
   [("temperature", .vnum 0), ("max_tokens", .vint 4000)]⟩

section Sanity

example : LLMHandler.detect_provider "llama3.2:3b" = .ok "ollama" := rfl
example : LLMHandler.detect_provider "mistral:7b" =
    .error (.providerDetectionError "mistral:7b") := rfl
example : LLMHandler.get_all_models = ["llama3.2:3b", "mistral:7b"] := rfl
example : LLMHandler.validate_model "ollama" "llama3.2:3b" = .ok true := rfl
example :
    LLMHandler.assemble_params "o1-2024-12-17" 0.9 (some 4000) [] =
      [("max_tokens", .vint 4000)] := rfl
example :
    LLMHandler.assemble_params "o1-r1" 0.9 (some 4000) [] =
      [("max_tokens", .vint 4000), ("temperature", .vnum 0.6)] := rfl

end Sanity

namespace LLMHandler

/-- A successful `validate_model` forces the provider to be `"ollama"`: it is
the only key of the active catalog. -/
theorem validate_ok_provider (provider model_name : String) (b : Bool)
    (h : validate_model provider model_name = .ok b) : provider = "ollama" := by
  unfold validate_model at h
  cases hf : available_models.find? (fun pr => pr.1 == provider) with
  | none => rw [hf] at h; exact Except.noConfusion h
  | some entry =>
    have hmem : entry ∈ available_models := List.mem_of_find?_eq_some hf
    have hpred : (entry.1 == provider) = true := by simpa using List.find?_some hf
    have h1 : entry.1 = "ollama" := by
      simp only [available_models, List.mem_singleton] at hmem
      rw [hmem]
    rw [h1] at hpred
    exact (eq_of_beq hpred).symm

/-- In a dict with the key `k` removed, setting `k` to a non-`None` value and
then dropping `None`-valued entries leaves `k` bound to exactly that value. -/
theorem dictGet_filter_set_of_popped (d : List (String × PyValue)) (k : String)
    (v : PyValue) (hv : (v != PyValue.vnone) = true) :
    dictGet ((dictSet (dictPop d k) k v).filter (fun pr => pr.2 != PyValue.vnone)) k =
      some v := by
  have hno : ∀ pr ∈ dictPop d k, (pr.1 == k) = false := by
    intro pr hpr
    have h2 := (List.mem_filter.mp hpr).2
    simpa [bne] using h2
  have hany : ((dictPop d k).any (fun pr => pr.1 == k)) = false := by
    rw [List.any_eq_false]
    intro pr hpr
    simp [hno pr hpr]
  rw [dictSet, hany]
  rw [if_neg (by simp)]
  rw [List.filter_append]
  rw [show ([(k, v)].filter (fun pr => pr.2 != PyValue.vnone)) = [(k, v)] from by simp [hv]]
  unfold dictGet
  rw [List.find?_append]
  have h1 : ((dictPop d k).filter (fun pr => pr.2 != PyValue.vnone)).find?
      (fun pr => pr.1 == k) = none := by
    rw [List.find?_eq_none]
    intro pr hpr
    have hpr2 := (List.mem_filter.mp hpr).1
    simp [hno pr hpr2]
  rw [h1]
  simp [List.find?]

/-- Unfolding equation for `get_llm` when provider resolution fails: the error
propagates and nothing else happens. -/
theorem get_llm_eq_of_resolve_error (model_name : String) (provider : Option String)
    (temperature : ℚ) (max_tokens : Option Int) (api_key : Option String)
    (kwargs : List (String × PyValue)) (e : LLMError)
    (hP : resolve_provider model_name provider = .error e) :
    get_llm model_name provider temperature max_tokens api_key kwargs =
      ⟨.error e, []⟩ := by
  unfold get_llm
  rw [hP]

/-- Unfolding equation for `get_llm` once the provider is resolved: the call
reduces to the validation match. -/
theorem get_llm_eq_of_resolve_ok (model_name : String) (provider : Option String)
    (temperature : ℚ) (max_tokens : Option Int) (api_key : Option String)
    (kwargs : List (String × PyValue)) (prov : String)
    (hP : resolve_provider model_name provider = .ok prov) :
    get_llm model_name provider temperature max_tokens api_key kwargs =
      (match validate_model prov model_name with
       | .error e => ⟨.error e, []⟩
       | .ok _ =>
         ⟨.ok (dispatch prov model_name
             (assemble_params model_name temperature max_tokens kwargs)),
          if pyTruthy api_key then
            [(strUpper prov ++ "_API_KEY", api_key.getD "")]
          else []⟩) := by
  unfold get_llm
  rw [hP]

end LLMHandler

namespace LLMHandler

/-- Claim C5 (confirmed): `detect_provider` scans the pattern table in
definition order and returns the provider of the first pattern occurring as a
substring of the lower-cased model name; when no pattern is a substring it
fails with the provider-detection error. -/
theorem C5_detect_provider_first_match (model_name : String) :
    (∀ provider, detect_provider model_name = .ok provider ↔
       ∃ pre pat post, model_patterns = pre ++ (pat, provider) :: post ∧
         substrOf pat (strLower model_name) = true ∧
         ∀ pr ∈ pre, substrOf pr.1 (strLower model_name) = false) ∧
    (detect_provider model_name = .error (.providerDetectionError model_name) ↔
       ∀ pr ∈ model_patterns, substrOf pr.1 (strLower model_name) = false) := by
  constructor
  · intro provider
    constructor
    · intro h
      unfold detect_provider at h
      cases hf : model_patterns.find? (fun pr => substrOf pr.1 (strLower model_name)) with
      | none => rw [hf] at h; exact absurd h (by simp)
      | some entry =>
        rw [hf] at h
        simp only [Except.ok.injEq] at h
        rw [List.find?_eq_some] at hf
        obtain ⟨hpred, as, bs, hdecomp, hfail⟩ := hf
        refine ⟨as, entry.1, bs, ?_, by simpa using hpred, ?_⟩
        · rw [← h, Prod.mk.eta]
          exact hdecomp
        · intro pr hpr
          simpa using hfail pr hpr
    · rintro ⟨pre, pat, post, hdecomp, hmatch, hpre⟩
      unfold detect_provider
      have hf : model_patterns.find? (fun pr => substrOf pr.1 (strLower model_name)) =
          some (pat, provider) := by
        rw [List.find?_eq_some]
        exact ⟨by simpa using hmatch, pre, post, hdecomp,
               fun a ha => by simp [hpre a ha]⟩
      rw [hf]
  · constructor
    · intro h pr hpr
      unfold detect_provider at h
      cases hf : model_patterns.find? (fun pr => substrOf pr.1 (strLower model_name)) with
      | none =>
        rw [List.find?_eq_none] at hf
        simpa using hf pr hpr
      | some entry => rw [hf] at h; exact absurd h (by simp)
    · intro h
      unfold detect_provider
      have hf : model_patterns.find? (fun pr => substrOf pr.1 (strLower model_name)) =
          none := by
        rw [List.find?_eq_none]
        intro pr hpr
        simp [h pr hpr]
      rw [hf]

/-- Witness for C5: instantiates the characterization at "llama3.2:3b"
(provider "ollama" via the "llama" pattern, ninth in the table) and at a name
matching no pattern. -/
theorem C5_witness :
    detect_provider "llama3.2:3b" = .ok "ollama" ∧
    detect_provider "zzz" = .error (.providerDetectionError "zzz") := by
  constructor
  · exact ((C5_detect_provider_first_match "llama3.2:3b").1 "ollama").mpr
      ⟨[("o1", "openai"), ("o3", "openai"), ("gpt-4o", "openai"), ("claude", "anthropic"),
        ("mistral-", "mistral"), ("ministral", "mistral"), ("gemini", "google"),
        ("mixtral", "together")], "llama",
       [("fireworks", "fireworks"), ("r1", "together"), ("deepseek-v3", "together")],
       rfl, rfl, by decide⟩
  · exact (C5_detect_provider_first_match "zzz").2.mpr (by decide)

/-- Claim C6 (confirmed): `validate_model` fails with the unsupported-provider
error when the provider is not a key of the catalog, fails with the
unsupported-model error when the model is not in that provider list, and
returns `true` otherwise; in particular it accepts ("ollama", "llama3.2:3b")
and rejects ("ollama", "gpt-4o"). -/
theorem C6_validate_model_spec :
    (∀ provider model_name, (∀ pr ∈ available_models, pr.1 ≠ provider) →
       validate_model provider model_name = .error (.unsupportedProvider provider)) ∧
    (∀ provider models model_name, (provider, models) ∈ available_models →
       model_name ∉ models →
       validate_model provider model_name =
         .error (.unsupportedModel provider model_name)) ∧
    (∀ provider models model_name, (provider, models) ∈ available_models →
       model_name ∈ models →
       validate_model provider model_name = .ok true) ∧
    validate_model "ollama" "llama3.2:3b" = .ok true ∧
    validate_model "ollama" "gpt-4o" = .error (.unsupportedModel "ollama" "gpt-4o") := by
  refine ⟨?_, ?_, ?_, rfl, rfl⟩
  · intro provider model_name h
    have h1 : ("ollama" : String) ≠ provider := h ("ollama", ["llama3.2:3b", "mistral:7b"])
      (by simp [available_models])
    have h2 : (("ollama" : String) == provider) = false := beq_eq_false_iff_ne.mpr h1
    simp [validate_model, available_models, List.find?, h2]
  · intro provider models model_name hmem hnot
    have h1 : provider = "ollama" ∧ models = ["llama3.2:3b", "mistral:7b"] := by
      simpa [available_models, Prod.ext_iff] using hmem
    obtain ⟨rfl, rfl⟩ := h1
    simp [validate_model, available_models, List.find?]
    simpa using hnot
  · intro provider models model_name hmem hin
    have h1 : provider = "ollama" ∧ models = ["llama3.2:3b", "mistral:7b"] := by
      simpa [available_models, Prod.ext_iff] using hmem
    obtain ⟨rfl, rfl⟩ := h1
    have h2 := hin
    simp only [List.mem_cons, List.not_mem_nil, or_false] at h2
    simp [validate_model, available_models, List.find?]
    tauto

/-- Witness for C6: the unsupported-provider branch at ("openai",
"o1-2024-12-17") and the unsupported-model branch at ("ollama", "gpt-4o"),
both via the characterization. -/
theorem C6_witness :
    validate_model "openai" "o1-2024-12-17" =
      .error (.unsupportedProvider "openai") ∧
    validate_model "ollama" "mistral:7b" = .ok true := by
  constructor
  · exact C6_validate_model_spec.1 "openai" "o1-2024-12-17" (by decide)
  · exact C6_validate_model_spec.2.2.1 "ollama" ["llama3.2:3b", "mistral:7b"]
      "mistral:7b" (by decide) (by decide)

/-- Claim C8 (confirmed): detection is pattern-based, not catalog-based: it is
not the case that every catalog model detects to its catalog provider; the
catalog model "mistral:7b" (under "ollama") matches no pattern at all, so
detection raises rather than returning "ollama". -/
theorem C8_detection_not_catalog_aligned :
    (¬ ∀ pr ∈ available_models, ∀ m ∈ pr.2, detect_provider m = .ok pr.1) ∧
    (∃ pr ∈ available_models, ∃ m ∈ pr.2, detect_provider m ≠ .ok pr.1) ∧
    detect_provider "mistral:7b" =
      .error (.providerDetectionError "mistral:7b") := by
  refine ⟨?_, ?_, rfl⟩
  · intro h
    exact absurd
      (h ("ollama", ["llama3.2:3b", "mistral:7b"]) (by decide) "mistral:7b" (by decide))
      (by decide)
  · exact ⟨("ollama", ["llama3.2:3b", "mistral:7b"]), by decide, "mistral:7b",
      by decide, by decide⟩

/-- Claim C9 (confirmed): `get_all_models` is the concatenation of the
catalog model lists in table order (no dedup, no sorting), and its length is
the sum of the entry lengths. -/
theorem C9_get_all_models_concat :
    get_all_models = (available_models.map (fun pr => pr.2)).flatten ∧
    get_all_models.length =
      ((available_models.map (fun pr => pr.2.length)).sum) := ⟨rfl, rfl⟩

/-- Claim C10 (confirmed): a call with `api_key` equal to the empty string
performs no environment write, because the code tests the truthiness of the key
(`if api_key:`) and `""` is falsy. -/
theorem C10_empty_api_key_writes_nothing (model_name : String)
    (provider : Option String) (temperature : ℚ) (max_tokens : Option Int)
    (kwargs : List (String × PyValue)) :
    (get_llm model_name provider temperature max_tokens (some "") kwargs).env_writes =
      [] := by
  simp only [get_llm]
  split
  · rfl
  · split
    · rfl
    · simp [pyTruthy]

end LLMHandler

namespace LLMHandler

/-- Counterexample to claim C1: at model name "o1-r1" (matching both the
"o1"/"o3" removal check and the "r1" override), the assembled parameter set
does NOT end with temperature unset — the r1 override re-adds it as 0.6,
because the two checks are sequential independent `if`s. -/
theorem C1_counterexample :
    ¬ (∀ (model_name : String) (temperature : ℚ) (max_tokens : Option Int)
         (kwargs : List (String × PyValue)),
         (substrOf "o1" model_name || substrOf "o3" model_name) = true →
         substrOf "r1" model_name = true →
         dictGet (assemble_params model_name temperature max_tokens kwargs)
           "temperature" = none) := by
  intro hall
  have hx := hall "o1-r1" 0 (some 4000) [] rfl rfl
  rw [show dictGet (assemble_params "o1-r1" 0 (some 4000) []) "temperature" =
      some (.vnum 0.6) from rfl] at hx
  exact Option.noConfusion hx

/-- Claim C1 (amended): for every model name containing "o1" or "o3" AND
containing "r1", the assembled parameter set ends with the temperature key
present and forced to 0.6 — the r1 override, running after the o1/o3 removal,
re-adds the removed temperature. -/
theorem C1_amended (model_name : String) (temperature : ℚ)
    (max_tokens : Option Int) (kwargs : List (String × PyValue))
    (h13 : (substrOf "o1" model_name || substrOf "o3" model_name) = true)
    (hr1 : substrOf "r1" model_name = true) :
    dictGet (assemble_params model_name temperature max_tokens kwargs)
      "temperature" = some (.vnum 0.6) := by
  simp only [assemble_params, h13, hr1, if_true]
  exact dictGet_filter_set_of_popped _ "temperature" (.vnum 0.6) rfl

/-- Witness for C1 (amended), at model name "o1-r1". -/
theorem C1_amended_witness :
    dictGet (assemble_params "o1-r1" 0 (some 4000) []) "temperature" =
      some (.vnum 0.6) :=
  C1_amended "o1-r1" 0 (some 4000) [] rfl rfl

/-- Counterexample to claim C3: `get_llm "o1-2024-12-17"` with temperature 0.9
does not produce an assembled parameter set at all — it raises the
unsupported-provider error for the detected provider "openai", since only
"ollama" is an active catalog key. -/
theorem C3_counterexample :
    (get_llm "o1-2024-12-17" none 0.9 (some 4000) none []).result =
      .error (.unsupportedProvider "openai") ∧
    ∀ call, (get_llm "o1-2024-12-17" none 0.9 (some 4000) none []).result ≠
      .ok call := by
  refine ⟨rfl, fun call h => ?_⟩
  rw [show (get_llm "o1-2024-12-17" none 0.9 (some 4000) none []).result =
      .error (.unsupportedProvider "openai") from rfl] at h
  exact Except.noConfusion h

/-- Claim C3 (amended): the call fails with the unsupported-provider error
before parameters are assembled; the parameter-assembly step applied to
"o1-2024-12-17" with temperature 0.9 does yield a set with no temperature
key. -/
theorem C3_amended :
    (get_llm "o1-2024-12-17" none 0.9 (some 4000) none []).result =
      .error (.unsupportedProvider "openai") ∧
    dictGet (assemble_params "o1-2024-12-17" 0.9 (some 4000) []) "temperature" =
      none := ⟨rfl, rfl⟩

/-- Counterexample to claim C4: `get_llm "accounts/fireworks/models/deepseek-r1"`
never assembles parameters with temperature 0.6 — it raises the
unsupported-provider error for "fireworks", which is not an active catalog
key. -/
theorem C4_counterexample :
    (get_llm "accounts/fireworks/models/deepseek-r1" none 0 (some 4000) none
      []).result = .error (.unsupportedProvider "fireworks") ∧
    ∀ call, (get_llm "accounts/fireworks/models/deepseek-r1" none 0 (some 4000)
      none []).result ≠ .ok call := by
  refine ⟨rfl, fun call h => ?_⟩
  rw [show (get_llm "accounts/fireworks/models/deepseek-r1" none 0 (some 4000)
      none []).result = .error (.unsupportedProvider "fireworks") from rfl] at h
  exact Except.noConfusion h

/-- Claim C4 (amended): the provider does resolve to "fireworks" (its pattern
precedes "r1" in table order), but the call then fails with the
unsupported-provider error; the parameter-assembly step applied to this model
name does force temperature to 0.6. -/
theorem C4_amended :
    detect_provider "accounts/fireworks/models/deepseek-r1" = .ok "fireworks" ∧
    (get_llm "accounts/fireworks/models/deepseek-r1" none 0 (some 4000) none
      []).result = .error (.unsupportedProvider "fireworks") ∧
    dictGet (assemble_params "accounts/fireworks/models/deepseek-r1" 0
      (some 4000) []) "temperature" = some (.vnum 0.6) := ⟨rfl, rfl, rfl⟩

/-- Counterexample to claim C7: a call with provider "openai" and a supplied
api_key writes NO environment variable — validation rejects "openai" (not an
active catalog key) before the api-key step runs. -/
theorem C7_counterexample :
    (get_llm "o1-2024-12-17" (some "openai") 0 (some 4000) (some "sk-test")
      []).env_writes = [] ∧
    (get_llm "o1-2024-12-17" (some "openai") 0 (some 4000) (some "sk-test")
      []).result = .error (.unsupportedProvider "openai") := ⟨rfl, rfl⟩

/-- Claim C7 (amended): the api-key step writes `{PROVIDER}_API_KEY`
(upper-cased provider) with the supplied value exactly, but it runs only
after validation succeeds; every call with provider "openai" fails validation
and writes nothing, while a validated "ollama" call with a truthy api_key
writes OLLAMA_API_KEY to the supplied value exactly. -/
theorem C7_amended :
    (∀ model_name temperature max_tokens api_key kwargs,
       (get_llm model_name (some "openai") temperature max_tokens api_key
         kwargs).env_writes = []) ∧
    (∀ model_name temperature max_tokens k kwargs, k ≠ "" →
       validate_model "ollama" model_name = .ok true →
       (get_llm model_name (some "ollama") temperature max_tokens (some k)
         kwargs).env_writes = [("OLLAMA_API_KEY", k)]) := by
  constructor
  · intro model_name temperature max_tokens api_key kwargs
    rfl
  · intro model_name temperature max_tokens k kwargs hk hval
    rw [get_llm_eq_of_resolve_ok model_name (some "ollama") temperature max_tokens
      (some k) kwargs "ollama" rfl, hval]
    show (if pyTruthy (some k) then
        [(strUpper "ollama" ++ "_API_KEY", (some k).getD "")] else []) =
      [("OLLAMA_API_KEY", k)]
    rw [if_pos (show pyTruthy (some k) = true by simpa [pyTruthy] using hk)]
    rfl

/-- Witness for C7 (amended): validated call `get_llm "llama3.2:3b"` with
provider "ollama" and api_key "sk-live" writes exactly OLLAMA_API_KEY. -/
theorem C7_amended_witness :
    (get_llm "llama3.2:3b" (some "ollama") 0 (some 4000) (some "sk-live")
      []).env_writes = [("OLLAMA_API_KEY", "sk-live")] :=
  C7_amended.2 "llama3.2:3b" 0 (some 4000) "sk-live" [] (by decide) rfl

end LLMHandler

namespace LLMHandler

/-- Counterexample to claim C2: a call dispatching to "ollama" with a supplied
api_key "sk-abc" DOES have an observable effect of that api_key — the
environment variable OLLAMA_API_KEY is written — refuting "no observable
effect of the supplied api_key occurs". -/
theorem C2_counterexample :
    (get_llm "llama3.2:3b" none 0 (some 4000) (some "sk-abc") []).env_writes =
      [("OLLAMA_API_KEY", "sk-abc")] ∧
    (get_llm "llama3.2:3b" none 0 (some 4000) (some "sk-abc") []).env_writes ≠
      [] := by
  refine ⟨rfl, fun h => ?_⟩
  rw [show (get_llm "llama3.2:3b" none 0 (some 4000)
      (some "sk-abc") []).env_writes = [("OLLAMA_API_KEY", "sk-abc")] from rfl] at h
  exact List.noConfusion h

/-- Claim C2 (amended): every successful `get_llm` call constructs `ChatOllama`
with the hardcoded local model "llama3.1:8b-instruct-q8_0" and hardcoded local
endpoint, ignoring the caller model_name in the construction; but a supplied
truthy api_key is NOT ignored: it is written to the environment as
OLLAMA_API_KEY. -/
theorem C2_amended (model_name : String) (provider : Option String)
    (temperature : ℚ) (max_tokens : Option Int) (api_key : Option String)
    (kwargs : List (String × PyValue)) (call : ClientCall)
    (h : (get_llm model_name provider temperature max_tokens api_key
           kwargs).result = .ok (some call)) :
    call.ctorName = "ChatOllama" ∧
    call.model_value = "llama3.1:8b-instruct-q8_0" ∧
    call.base_url = some "http://host.docker.internal:11434/v1" ∧
    (∀ k, api_key = some k → k ≠ "" →
       (get_llm model_name provider temperature max_tokens api_key
         kwargs).env_writes = [("OLLAMA_API_KEY", k)]) := by
  cases hP : resolve_provider model_name provider with
  | error e =>
    rw [get_llm_eq_of_resolve_error model_name provider temperature max_tokens
      api_key kwargs e hP] at h
    exact Except.noConfusion h
  | ok prov =>
    rw [get_llm_eq_of_resolve_ok model_name provider temperature max_tokens
      api_key kwargs prov hP] at h
    cases hV : validate_model prov model_name with
    | error e =>
      rw [hV] at h
      exact Except.noConfusion h
    | ok b =>
      rw [hV] at h
      have hprov : prov = "ollama" := validate_ok_provider prov model_name b hV
      subst hprov
      have h2 : dispatch "ollama" model_name
          (assemble_params model_name temperature max_tokens kwargs) =
          some call := Except.ok.inj h
      have h4 : (⟨"ChatOllama", "model", "llama3.1:8b-instruct-q8_0",
          some "http://host.docker.internal:11434/v1",
          assemble_params model_name temperature max_tokens kwargs⟩ : ClientCall) =
          call := Option.some.inj h2
      subst h4
      refine ⟨rfl, rfl, rfl, ?_⟩
      intro k hak hk
      subst hak
      rw [get_llm_eq_of_resolve_ok model_name provider temperature max_tokens
        (some k) kwargs "ollama" hP, hV]
      show (if pyTruthy (some k) then
          [(strUpper "ollama" ++ "_API_KEY", (some k).getD "")] else []) =
        [("OLLAMA_API_KEY", k)]
      rw [if_pos (show pyTruthy (some k) = true by simpa [pyTruthy] using hk)]
      rfl

/-- Witness for C2 (amended): the successful call `get_llm "llama3.2:3b"` with
api_key "sk-abc" yields exactly `sampleOllamaCall` and the OLLAMA_API_KEY
write. -/
theorem C2_amended_witness :
    sampleOllamaCall.ctorName = "ChatOllama" ∧
    sampleOllamaCall.model_value = "llama3.1:8b-instruct-q8_0" ∧
    sampleOllamaCall.base_url = some "http://host.docker.internal:11434/v1" ∧
    (∀ k, (some "sk-abc" : Option String) = some k → k ≠ "" →
       (get_llm "llama3.2:3b" none 0 (some 4000) (some "sk-abc") []).env_writes =
         [("OLLAMA_API_KEY", k)]) :=
  C2_amended "llama3.2:3b" none 0 (some 4000) (some "sk-abc") []
    sampleOllamaCall rfl

end LLMHandler
